import Mathlib

/-!
Shallow embedding of the VoiceConsultation screen (src/unnamed/part_000).

The component keeps a single state record (interface ConsultationState,
lines 8-15) plus a mutable recording ref (line 27).  Each UI handler is
embedded as a pure function from the pre-state and the outcomes of the
platform calls it awaits to its post-state; an async handler whose awaited
platform call rejects outside a try block escapes with an uncaught
rejection, which the embedding records explicitly.  Reachability claims are
settled over a labeled transition system whose events are the handler
invocations the rendered UI enables plus the two callbacks (the scheduled
processConsultation timeout and the speech onDone callback).
-/

namespace VoiceConsultation

/-- The state record of the component: interface ConsultationState,
src/unnamed/part_000 lines 8-15. -/
structure ConsultationState where
  isRecording : Bool
  audioUri : Option String
  imageUri : Option String
  diagnosis : String
  isProcessing : Bool
  isSpeaking : Bool
  deriving Repr, DecidableEq

/-- The initial state passed to useState (lines 18-25). -/
def initialState : ConsultationState where
  isRecording := false
  audioUri := none
  imageUri := none
  diagnosis := ""
  isProcessing := false
  isSpeaking := false

/-- The fixed mockDiagnosis template literal (lines 79-87). -/
def mockDiagnosis : String :=
  "Based on your symptoms and the provided image, here are my recommendations:\n\n1. Apply over-the-counter hydrocortisone cream twice daily\n2. Avoid scratching the affected area\n3. Keep the area clean and dry\n4. Take an oral antihistamine if experiencing itching\n5. Consider using a gentle, fragrance-free moisturizer\n\nPlease note: This is an AI-generated recommendation. For accurate diagnosis and treatment, please consult with a healthcare professional."

/-- A live Audio.Recording handle; getURI (line 52) returns a string or
null, modelled by the uri field. -/
structure RecordingHandle where
  uri : Option String
  deriving Repr, DecidableEq

/-- The mutable component state: the useState record together with the
recording ref (line 27). -/
structure PanelState where
  state : ConsultationState
  recordingHandle : Option RecordingHandle
  deriving Repr, DecidableEq

/-- Outcome of Audio.requestPermissionsAsync (line 31): the promise
resolves with a granted or denied response, or rejects. -/
inductive PermissionOutcome where
  | granted
  | denied
  | rejects (msg : String)
  deriving Repr, DecidableEq

/-- Outcome of an awaited platform call: the promise resolves with a value
or rejects with an error. -/
inductive CallOutcome (α : Type) where
  | resolves (val : α)
  | rejects (msg : String)
  deriving Repr, DecidableEq

/-- The console.error message of startRecording (line 43). -/
def startLogMsg : String := "Failed to start recording"

/-- The console.error message of speakDiagnosis (line 109). -/
def speakLogMsg : String := "Error speaking"

/-- startRecording (lines 29-45): inside one try block it awaits
requestPermissionsAsync (result discarded), setAudioModeAsync and
Recording.createAsync, stores the new handle in the ref and sets
isRecording true; any rejection is caught and logged, leaving the
component untouched.  Returns the post-state and the console.error log. -/
def startRecording (p : PanelState) (perm : PermissionOutcome)
    (audioMode : CallOutcome Unit) (create : CallOutcome RecordingHandle) :
    PanelState × List String :=
  match perm with
  | PermissionOutcome.rejects _ => (p, [startLogMsg])
  | _ =>
    match audioMode with
    | CallOutcome.rejects _ => (p, [startLogMsg])
    | CallOutcome.resolves _ =>
      match create with
      | CallOutcome.rejects _ => (p, [startLogMsg])
      | CallOutcome.resolves h =>
        ({ state := { p.state with isRecording := true },
           recordingHandle := some h }, [])

/-- Result of a stopRecording invocation: an early return (line 48), a
normal completion that schedules processConsultation after a delay in
milliseconds (lines 57-59), or an uncaught promise rejection escaping the
handler with the component state as mutated so far. -/
inductive StopResult where
  | noop (p : PanelState)
  | scheduled (p : PanelState) (delayMs : Nat)
  | uncaught (p : PanelState) (err : String)
  deriving Repr, DecidableEq

/-- stopRecording (lines 47-60): returns at once when the ref is null;
otherwise sets isRecording false and isProcessing true, awaits
stopAndUnloadAsync with no try block (a rejection escapes uncaught, after
the setState has already landed), reads getURI into a local that is never
used again, clears the ref and schedules processConsultation 1500 ms
later.  No field of the state record receives the retrieved uri. -/
def stopRecording (p : PanelState) (stopUnload : CallOutcome Unit) :
    StopResult :=
  match p.recordingHandle with
  | none => StopResult.noop p
  | some h =>
    let s1 : ConsultationState :=
      { p.state with isRecording := false, isProcessing := true }
    match stopUnload with
    | CallOutcome.rejects msg =>
      StopResult.uncaught { state := s1, recordingHandle := some h } msg
    | CallOutcome.resolves _ =>
      let _uri := h.uri
      StopResult.scheduled { state := s1, recordingHandle := none } 1500

/-- Result of ImagePicker.launchImageLibraryAsync (lines 63-68). -/
inductive PickerResult where
  | canceled
  | selected (uri : String)
  deriving Repr, DecidableEq

/-- pickImage (lines 62-73): awaits the picker with no try block (a
rejection escapes uncaught, with no state change since nothing was mutated
before the await); on cancel nothing changes, on selection imageUri is set
to the asset uri. -/
def pickImage (p : PanelState) (res : CallOutcome PickerResult) :
    Except String PanelState :=
  match res with
  | CallOutcome.rejects msg => Except.error msg
  | CallOutcome.resolves PickerResult.canceled => Except.ok p
  | CallOutcome.resolves (PickerResult.selected u) =>
    Except.ok { p with state := { p.state with imageUri := some u } }

/-- speakDiagnosis (lines 99-112): sets isSpeaking true, then awaits
Speech.speak inside a try block; a rejection is caught, logged, and clears
isSpeaking.  The onDone callback (line 106) that later clears isSpeaking
is modelled as the separate speechDone event of the transition system. -/
def speakDiagnosis (s : ConsultationState) (speakCall : CallOutcome Unit) :
    ConsultationState × List String :=
  let s1 := { s with isSpeaking := true }
  match speakCall with
  | CallOutcome.rejects _ => ({ s1 with isSpeaking := false }, [speakLogMsg])
  | CallOutcome.resolves _ => (s1, [])

/-- processConsultation (lines 75-97): sets isProcessing true, then in the
same synchronous run replaces diagnosis with the fixed mockDiagnosis
literal and clears isProcessing, and finally calls
speakDiagnosis mockDiagnosis unconditionally. -/
def processConsultation (s : ConsultationState)
    (speakCall : CallOutcome Unit) : ConsultationState × List String :=
  let s1 := { s with isProcessing := true }
  let s2 := { s1 with diagnosis := mockDiagnosis, isProcessing := false }
  speakDiagnosis s2 speakCall

/-- The state change of one processConsultation run whose Speech.speak
call resolves. -/
def applyProcess (s : ConsultationState) : ConsultationState :=
  (processConsultation s (CallOutcome.resolves ())).1

/-- onDone callback of Speech.speak (line 106). -/
def speechDone (s : ConsultationState) : ConsultationState :=
  { s with isSpeaking := false }

/-- Events of the panel: each handler invocation the rendered UI enables,
plus the scheduled processConsultation timeout and the speech onDone
callback.  Platform calls of the LTS resolve except where the event name
says otherwise; handler-escaping failures are studied on the handler
functions directly. -/
inductive Event where
  | startOk (h : RecordingHandle)
  | startFail
  | stopOk
  | stopFail
  | timerFire
  | manualProcess
  | speakTap
  | speakDone
  | pickSelect (uri : String)
  | pickCancel
  deriving Repr, DecidableEq

/-- Component state plus the number of pending processConsultation
timeouts scheduled by stopRecording. -/
structure SysState where
  panel : PanelState
  pendingTimers : Nat
  deriving Repr, DecidableEq

/-- The mounted screen: initial useState record, null ref, no timers. -/
def initSys : SysState :=
  { panel := { state := initialState, recordingHandle := none },
    pendingTimers := 0 }

/-- One step of the panel.  Enabledness follows the rendered UI
(lines 114-183): the record button dispatches startRecording only while
isRecording is false and stopRecording only while it is true; the
Get Diagnosis button exists only while imageUri is set (line 141) and is
never disabled; the speak button exists only while diagnosis is nonempty
(line 161) and is disabled while isSpeaking (line 169); the image button
is always enabled; timerFire needs a pending timeout and speakDone a live
speech session. -/
def stepSys (σ : SysState) (e : Event) : Option SysState :=
  match e with
  | Event.startOk h =>
    if σ.panel.state.isRecording then none
    else
      let s2 := { σ.panel.state with isRecording := true }
      some { panel := { state := s2, recordingHandle := some h },
             pendingTimers := σ.pendingTimers }
  | Event.startFail =>
    if σ.panel.state.isRecording then none else some σ
  | Event.stopOk =>
    if σ.panel.state.isRecording then
      match σ.panel.recordingHandle with
      | some _ =>
        let s2 := { σ.panel.state with isRecording := false, isProcessing := true }
        some { panel := { state := s2, recordingHandle := none },
               pendingTimers := σ.pendingTimers + 1 }
      | none => some σ
    else none
  | Event.stopFail =>
    if σ.panel.state.isRecording then
      match σ.panel.recordingHandle with
      | some h =>
        let s2 := { σ.panel.state with isRecording := false, isProcessing := true }
        some { panel := { state := s2, recordingHandle := some h },
               pendingTimers := σ.pendingTimers }
      | none => some σ
    else none
  | Event.timerFire =>
    match σ.pendingTimers with
    | 0 => none
    | n + 1 =>
      some { panel := { state := applyProcess σ.panel.state,
                        recordingHandle := σ.panel.recordingHandle },
             pendingTimers := n }
  | Event.manualProcess =>
    match σ.panel.state.imageUri with
    | none => none
    | some _ =>
      some { panel := { state := applyProcess σ.panel.state,
                        recordingHandle := σ.panel.recordingHandle },
             pendingTimers := σ.pendingTimers }
  | Event.speakTap =>
    if σ.panel.state.diagnosis = "" then none
    else if σ.panel.state.isSpeaking then none
    else
      let s2 := { σ.panel.state with isSpeaking := true }
      some { panel := { state := s2, recordingHandle := σ.panel.recordingHandle },
             pendingTimers := σ.pendingTimers }
  | Event.speakDone =>
    if σ.panel.state.isSpeaking then
      some { panel := { state := speechDone σ.panel.state,
                        recordingHandle := σ.panel.recordingHandle },
             pendingTimers := σ.pendingTimers }
    else none
  | Event.pickSelect u =>
    let s2 := { σ.panel.state with imageUri := some u }
    some { panel := { state := s2, recordingHandle := σ.panel.recordingHandle },
           pendingTimers := σ.pendingTimers }
  | Event.pickCancel => some σ

/-- Run a sequence of events from a state; none when some event is not
enabled. -/
def runFrom (σ : SysState) : List Event → Option SysState
  | [] => some σ
  | e :: es =>
    match stepSys σ e with
    | none => none
    | some σ2 => runFrom σ2 es

/-- At most one of isRecording and isProcessing is true. -/
def mutexRP (σ : SysState) : Bool :=
  !(σ.panel.state.isRecording && σ.panel.state.isProcessing)

/-- The events that invoke startRecording. -/
def isStartEvent : Event → Bool
  | Event.startOk _ => true
  | Event.startFail => true
  | _ => false

/-- The trace never invokes startRecording while isProcessing is true. -/
def noStartWhileProcessing : SysState → List Event → Bool
  | _, [] => true
  | σ, e :: es =>
    (!(isStartEvent e) || !σ.panel.state.isProcessing) &&
      (match stepSys σ e with
       | none => noStartWhileProcessing σ es
       | some σ2 => noStartWhileProcessing σ2 es)

/-- The events whose handler starts a speech synthesis session: a tap on
the speak button, and both entry points of processConsultation, which
calls speakDiagnosis unconditionally (line 96). -/
def startsSpeech : Event → Bool
  | Event.timerFire => true
  | Event.manualProcess => true
  | Event.speakTap => true
  | _ => false

/-- Some enabled event of the trace starts a speech session while
isSpeaking is already true: two speech sessions overlap. -/
def overlappingSpeech (σ : SysState) : List Event → Bool
  | [] => false
  | e :: es =>
    match stepSys σ e with
    | none => false
    | some σ2 =>
      (startsSpeech e && σ.panel.state.isSpeaking) || overlappingSpeech σ2 es

/-- A panel with an active capture whose getURI will return the given
uri: the state right after a successful start tap. -/
def recordingPanel (u : String) : PanelState :=
  { state := { initialState with isRecording := true },
    recordingHandle := some { uri := some u } }

/-- The system state right after one successful start tap from the
mounted screen. -/
def afterStart : SysState :=
  { panel := { state := { initialState with isRecording := true },
               recordingHandle := some { uri := none } },
    pendingTimers := 0 }

/-- A mounted screen whose speech synthesis is currently playing. -/
def speakingSys : SysState :=
  { panel := { state := { initialState with isSpeaking := true },
               recordingHandle := none },
    pendingTimers := 0 }

/-- Claim C1: running processConsultation produces the fixed mockDiagnosis
literal whatever the prior state, so any two prior states, in particular
any two combinations of audioUri and imageUri including both absent, give
byte-identical diagnosis strings. -/
theorem c1_diagnosis_independent (s1 s2 : ConsultationState)
    (o1 o2 : CallOutcome Unit) :
    (processConsultation s1 o1).1.diagnosis = mockDiagnosis ∧
    (processConsultation s1 o1).1.diagnosis
      = (processConsultation s2 o2).1.diagnosis := by
  cases o1 <;> cases o2 <;> exact ⟨rfl, rfl⟩

/-- Claim C5: from any state, processConsultation with a resolving
Speech.speak call sets diagnosis to the fixed mockDiagnosis literal,
finishes with isProcessing false, and triggers playback, so isSpeaking is
true. -/
theorem c5_processConsultation_effect (s : ConsultationState) :
    (processConsultation s (CallOutcome.resolves ())).1.diagnosis
      = mockDiagnosis ∧
    (processConsultation s (CallOutcome.resolves ())).1.isProcessing
      = false ∧
    (processConsultation s (CallOutcome.resolves ())).1.isSpeaking = true :=
  ⟨rfl, rfl, rfl⟩

/-- Claim C7: whichever of the three awaited platform calls of
startRecording rejects first (permission request, audio-session
configuration, or capture creation), the error is caught and logged and
the component is left exactly as it was, so isRecording keeps its prior
value, in particular false when it was false. -/
theorem c7_startRecording_failure_unchanged (p : PanelState) (msg : String)
    (am : CallOutcome Unit) (cr : CallOutcome RecordingHandle) :
    startRecording p (PermissionOutcome.rejects msg) am cr
      = (p, [startLogMsg]) ∧
    startRecording p PermissionOutcome.granted (CallOutcome.rejects msg) cr
      = (p, [startLogMsg]) ∧
    startRecording p PermissionOutcome.denied (CallOutcome.rejects msg) cr
      = (p, [startLogMsg]) ∧
    startRecording p PermissionOutcome.granted (CallOutcome.resolves ())
      (CallOutcome.rejects msg) = (p, [startLogMsg]) ∧
    startRecording p PermissionOutcome.denied (CallOutcome.resolves ())
      (CallOutcome.rejects msg) = (p, [startLogMsg]) :=
  ⟨rfl, rfl, rfl, rfl, rfl⟩

/-- Claim C8: stopRecording with a null recording ref returns at once: no
field of the state record changes and nothing is scheduled (the result is
the noop constructor, not the scheduled one). -/
theorem c8_stopRecording_noop (s : ConsultationState) (o : CallOutcome Unit) :
    stopRecording { state := s, recordingHandle := none } o
      = StopResult.noop { state := s, recordingHandle := none } :=
  rfl

/-- Claim C9: a canceled picker leaves the whole component unchanged; a
selection sets imageUri to the returned uri and changes nothing else. -/
theorem c9_pickImage_effect (p : PanelState) (u : String) :
    pickImage p (CallOutcome.resolves PickerResult.canceled)
      = Except.ok p ∧
    pickImage p (CallOutcome.resolves (PickerResult.selected u))
      = Except.ok { state := { p.state with imageUri := some u },
                    recordingHandle := p.recordingHandle } :=
  ⟨rfl, rfl⟩

/-- Claim C10: the result of the permission request is discarded: with
identical later outcomes, a granted and a denied response give identical
results, and on success of the remaining calls isRecording is set true in
both cases. -/
theorem c10_permission_result_ignored (p : PanelState)
    (am : CallOutcome Unit) (cr : CallOutcome RecordingHandle)
    (h : RecordingHandle) :
    startRecording p PermissionOutcome.granted am cr
      = startRecording p PermissionOutcome.denied am cr ∧
    (startRecording p PermissionOutcome.denied (CallOutcome.resolves ())
      (CallOutcome.resolves h)).1.state.isRecording = true ∧
    (startRecording p PermissionOutcome.granted (CallOutcome.resolves ())
      (CallOutcome.resolves h)).1.state.isRecording = true :=
  ⟨rfl, rfl, rfl⟩

/-- Claim C3 (code evaluated at the failing input): stopRecording on an
active capture whose getURI returns file:///recording.m4a finishes with
audioUri still none.  The uri read at line 52 is bound to a local that is
never used, and no statement of the component ever writes audioUri, even
though the state interface declares the field for exactly this value. -/
theorem c3_audioUri_never_stored :
    stopRecording (recordingPanel "file:///recording.m4a")
      (CallOutcome.resolves ())
      = StopResult.scheduled
          { state := { initialState with isProcessing := true },
            recordingHandle := none } 1500 ∧
    ({ initialState with isProcessing := true } :
      ConsultationState).audioUri = none :=
  ⟨rfl, rfl⟩

/-- Claim C4 is false as stated: a stopAndUnloadAsync rejection inside
stopRecording is not caught by any try block: it escapes the handler as an
uncaught rejection, nothing is logged, and the state at the moment of
escape is not the pre-action state, since isRecording was already set
false and isProcessing true before the await. -/
theorem c4_uncaught_stop_failure :
    stopRecording (recordingPanel "file:///recording.m4a")
      (CallOutcome.rejects "boom")
      = StopResult.uncaught
          { state := { initialState with isProcessing := true },
            recordingHandle := some { uri := some "file:///recording.m4a" } }
          "boom" ∧
    ({ initialState with isProcessing := true } : ConsultationState)
      ≠ (recordingPanel "file:///recording.m4a").state := by
  exact ⟨rfl, by decide⟩

/-- Claim C4 (amended): failures inside startRecording and speakDiagnosis
are caught, logged, and leave the component at (or restore it to) the
pre-action state; but stopRecording and pickImage have no try block, so
their platform-call rejections escape uncaught: a picker rejection escapes
with the state untouched, and a stop-and-unload rejection escapes with
isRecording already false and isProcessing already true. -/
theorem c4_failure_semantics (p : PanelState) (s : ConsultationState)
    (h : RecordingHandle) (msg : String)
    (am : CallOutcome Unit) (cr : CallOutcome RecordingHandle) :
    startRecording p (PermissionOutcome.rejects msg) am cr
      = (p, [startLogMsg]) ∧
    startRecording p PermissionOutcome.granted (CallOutcome.rejects msg) cr
      = (p, [startLogMsg]) ∧
    startRecording p PermissionOutcome.granted (CallOutcome.resolves ())
      (CallOutcome.rejects msg) = (p, [startLogMsg]) ∧
    speakDiagnosis s (CallOutcome.rejects msg)
      = ({ s with isSpeaking := false }, [speakLogMsg]) ∧
    pickImage p (CallOutcome.rejects msg) = Except.error msg ∧
    stopRecording { state := s, recordingHandle := some h }
      (CallOutcome.rejects msg)
      = StopResult.uncaught
          { state := { s with isRecording := false, isProcessing := true },
            recordingHandle := some h } msg :=
  ⟨rfl, rfl, rfl, rfl, rfl, rfl⟩

/-- Claim C2 is false as stated: the concrete operation sequence start,
stop, start is accepted by the UI (after stop the record button again
dispatches startRecording, and nothing disables it during the processing
window), and it reaches a state with isRecording and isProcessing both
true. -/
theorem c2_both_flags_true :
    (runFrom initSys [Event.startOk { uri := none }, Event.stopOk,
        Event.startOk { uri := none }]).map
      (fun σ => σ.panel.state.isRecording && σ.panel.state.isProcessing)
      = some true := by
  decide

/-- One guarded step of the panel preserves the mutual exclusion of
isRecording and isProcessing. -/
theorem stepSys_mutex {σ σ2 : SysState} {e : Event}
    (hm : mutexRP σ = true)
    (hr : isStartEvent e = true → σ.panel.state.isProcessing = false)
    (hs : stepSys σ e = some σ2) : mutexRP σ2 = true := by
  cases e with
  | startOk h =>
    have hp : σ.panel.state.isProcessing = false := hr rfl
    simp only [stepSys] at hs
    split at hs
    · exact Option.noConfusion hs
    · injection hs with h2
      subst h2
      simp [mutexRP, hp]
  | startFail =>
    simp only [stepSys] at hs
    split at hs
    · exact Option.noConfusion hs
    · injection hs with h2
      subst h2
      exact hm
  | stopOk =>
    simp only [stepSys] at hs
    split at hs
    · split at hs
      · injection hs with h2
        subst h2
        simp [mutexRP]
      · injection hs with h2
        subst h2
        exact hm
    · exact Option.noConfusion hs
  | stopFail =>
    simp only [stepSys] at hs
    split at hs
    · split at hs
      · injection hs with h2
        subst h2
        simp [mutexRP]
      · injection hs with h2
        subst h2
        exact hm
    · exact Option.noConfusion hs
  | timerFire =>
    simp only [stepSys] at hs
    split at hs
    · exact Option.noConfusion hs
    · injection hs with h2
      subst h2
      simp [mutexRP, applyProcess, processConsultation, speakDiagnosis]
  | manualProcess =>
    simp only [stepSys] at hs
    split at hs
    · exact Option.noConfusion hs
    · injection hs with h2
      subst h2
      simp [mutexRP, applyProcess, processConsultation, speakDiagnosis]
  | speakTap =>
    simp only [stepSys] at hs
    split at hs
    · exact Option.noConfusion hs
    · split at hs
      · exact Option.noConfusion hs
      · injection hs with h2
        subst h2
        simpa [mutexRP] using hm
  | speakDone =>
    simp only [stepSys] at hs
    split at hs
    · injection hs with h2
      subst h2
      simpa [mutexRP, speechDone] using hm
    · exact Option.noConfusion hs
  | pickSelect u =>
    simp only [stepSys] at hs
    injection hs with h2
    subst h2
    simpa [mutexRP] using hm
  | pickCancel =>
    simp only [stepSys] at hs
    injection hs with h2
    subst h2
    exact hm

/-- A guarded run from a mutually exclusive state ends in a mutually
exclusive state. -/
theorem runFrom_mutex (es : List Event) (σ σf : SysState)
    (hm : mutexRP σ = true)
    (hres : noStartWhileProcessing σ es = true)
    (hrun : runFrom σ es = some σf) : mutexRP σf = true := by
  induction es generalizing σ with
  | nil =>
    simp only [runFrom] at hrun
    injection hrun with h2
    subst h2
    exact hm
  | cons e es ih =>
    simp only [runFrom] at hrun
    simp only [noStartWhileProcessing] at hres
    cases hstep : stepSys σ e with
    | none =>
      rw [hstep] at hrun
      exact Option.noConfusion hrun
    | some σ2 =>
      rw [hstep] at hrun
      rw [hstep] at hres
      rw [Bool.and_eq_true] at hres
      have hr : isStartEvent e = true → σ.panel.state.isProcessing = false := by
        intro hse
        have hcond := hres.1
        rw [hse] at hcond
        simpa using hcond
      exact ih σ2 (stepSys_mutex hm hr hstep) hres.2 hrun

/-- Claim C2 (amended): in every state reachable from the mounted screen
by a sequence of panel operations and callbacks in which startRecording is
never invoked while isProcessing is true, at most one of isRecording and
isProcessing is true.  (Invoking startRecording during the processing
window after a stop makes both flags true, as the counterexample shows;
no other modelled operation breaks the exclusion.) -/
theorem c2_mutex_under_guarded_start (es : List Event) (σf : SysState)
    (hres : noStartWhileProcessing initSys es = true)
    (hrun : runFrom initSys es = some σf) :
    σf.panel.state.isRecording = false ∨
    σf.panel.state.isProcessing = false := by
  have h := runFrom_mutex es initSys σf (by decide) hres hrun
  cases hrec : σf.panel.state.isRecording with
  | false => exact Or.inl rfl
  | true =>
    cases hproc : σf.panel.state.isProcessing with
    | false => exact Or.inr rfl
    | true => simp [mutexRP, hrec, hproc] at h

/-- Witness for c2_mutex_under_guarded_start: the one-tap trace of a
successful start satisfies the guard and reaches the started state, where
isProcessing is false. -/
theorem c2_mutex_witness :
    afterStart.panel.state.isRecording = false ∨
    afterStart.panel.state.isProcessing = false :=
  c2_mutex_under_guarded_start [Event.startOk { uri := none }] afterStart
    (by decide) (by decide)

/-- Claim C6 is false as stated: with an image selected, the Get Diagnosis
button stays enabled while speech is playing, and processConsultation
calls speakDiagnosis unconditionally, so the trace pick, process, process
starts a second speech session while isSpeaking is still true. -/
theorem c6_overlapping_speech :
    overlappingSpeech initSys [Event.pickSelect "file:///skin.jpg",
      Event.manualProcess, Event.manualProcess] = true := by
  decide

/-- Claim C6 (amended): the manual speak control is disabled while
isSpeaking is true, so a speak tap is never accepted then; but
processConsultation triggers playback unconditionally, so overlapping
speech sessions remain reachable through it, as the counterexample
shows. -/
theorem c6_speak_button_disabled (σ : SysState)
    (hsp : σ.panel.state.isSpeaking = true) :
    stepSys σ Event.speakTap = none := by
  simp only [stepSys, hsp]
  split <;> rfl

/-- Witness for c6_speak_button_disabled: on a mounted screen currently
speaking, the speak tap is rejected. -/
theorem c6_speak_button_disabled_witness :
    stepSys speakingSys Event.speakTap = none :=
  c6_speak_button_disabled speakingSys rfl

end VoiceConsultation
